import Mathlib

set_option maxRecDepth 100000

/-!
Shallow embedding of the mdbook-diagrams preprocessor (src/lib.rs,
src/process.rs): the diagram classifier, the content-addressed render cache,
the Kroki render client and the event rewriter, together with theorems about
the spec's claims.

Modelling conventions:
* Strings are Lean `String`s (Rust `String`/`&str`); byte vectors (`Vec<u8>`)
  are `List Nat` with entries below 256.
* The cache directory is an association list from path to file content; a
  `none` content models a file that exists but cannot be read.
* The network is an oracle function from the request the client builds to the
  service's response (or a transport error), so "no network request" is
  expressed as independence from the oracle.
* Panics (`expect`) and `Result` errors are distinguished by the `Outcome`
  type.
-/

namespace MdbookDiagrams

/-- `DiagramOutputFormat` from src/lib.rs. -/
inductive DiagramOutputFormat
  | Png
  | Svg
deriving DecidableEq, Repr

/-- `DiagramType` from src/process.rs: `Other` carries the prefix-stripped
language tag verbatim. -/
inductive DiagramType
  | Mermaid
  | PlantUml
  | Other (s : String)
deriving DecidableEq, Repr

/-! String operations are modelled on the character list a `String` wraps, so
that every definition evaluates by kernel reduction. -/

/-- `str::starts_with` for a string pattern. -/
def strStartsWith (s pre : String) : Bool := pre.data.isPrefixOf s.data

/-- Dropping the first `n` characters (`str::strip_prefix` once the prefix is
known to match drops exactly its characters). -/
def strDrop (s : String) (n : Nat) : String := ⟨s.data.drop n⟩

/-- `str::to_lowercase`, modelled with `Char.toLower` (ASCII lowercasing; it
agrees with Rust on ASCII strings, which is what the claims concern). -/
def strToLower (s : String) : String := ⟨s.data.map Char.toLower⟩

/-- The `Display` impl for `DiagramOutputFormat` (src/process.rs). -/
def DiagramOutputFormat.display : DiagramOutputFormat → String
  | .Svg => "svg"
  | .Png => "png"

/-- The `Display` impl for `DiagramType` (src/process.rs): the `Other` tag is
lowercased on serialization. -/
def DiagramType.display : DiagramType → String
  | .Mermaid => "mermaid"
  | .PlantUml => "plantuml"
  | .Other s => strToLower s

/-- `Config` from src/lib.rs. `files_path` is a directory path string; the
timeout is kept abstract (it only parametrizes the network agent, which the
model treats as an oracle). -/
structure Config where
  output_format : DiagramOutputFormat
  language_prefix : String
  kroki_url : String
  kroki_timeout : Option ℚ
  filename_prefix : String
  files_path : String
deriving DecidableEq, Repr

/-- The `Default` impl for `Config` (src/lib.rs); `tmp_dir` stands for
`std::env::temp_dir()`, which depends on the environment. -/
def Config.default (tmp_dir : String) : Config where
  output_format := DiagramOutputFormat.Png
  language_prefix := ""
  kroki_url := "https://kroki.io"
  kroki_timeout := none
  filename_prefix := "diagram-"
  files_path := tmp_dir

/-- `code_lang_diagram_type` from src/process.rs. The match guards use
`starts_with`, and `format!("{}mermaid", prefix)` is prefix concatenation;
`strip_prefix` on a matching prefix is dropping the prefix's characters. -/
def code_lang_diagram_type (lang : String) (config : Config) : Option DiagramType :=
  if strStartsWith lang (config.language_prefix ++ "mermaid") then
    some DiagramType.Mermaid
  else if strStartsWith lang (config.language_prefix ++ "plantuml") then
    some DiagramType.PlantUml
  else if !config.language_prefix.data.isEmpty && strStartsWith lang config.language_prefix then
    some (DiagramType.Other (strDrop lang config.language_prefix.data.length))
  else
    none

/-! ### SHA-1 (the `sha1` crate's digest, used by `hash` in src/process.rs)

Machine words are `Nat`s kept below `2 ^ 32` by explicit reduction. -/

/-- Truncation to a 32-bit word. -/
def w32 (n : Nat) : Nat := n % 4294967296

/-- 32-bit left rotation by `b` (for `x < 2 ^ 32`). -/
def rotl (b x : Nat) : Nat := w32 ((x <<< b) ||| (x >>> (32 - b)))

/-- SHA-1 padding: append `0x80`, zeros to 56 mod 64 bytes, then the bit
length as 8 big-endian bytes. -/
def sha1pad (msg : List Nat) : List Nat :=
  let len := msg.length
  let bitlen := 8 * len
  let zeros := (119 - len % 64) % 64
  msg ++ [128] ++ List.replicate zeros 0 ++
    [bitlen >>> 56 % 256, bitlen >>> 48 % 256, bitlen >>> 40 % 256, bitlen >>> 32 % 256,
     bitlen >>> 24 % 256, bitlen >>> 16 % 256, bitlen >>> 8 % 256, bitlen % 256]

/-- Big-endian 4-byte grouping of a byte list into 32-bit words. -/
def bytesToWords : List Nat → List Nat
  | a :: b :: c :: d :: rest => (((a * 256 + b) * 256 + c) * 256 + d) :: bytesToWords rest
  | _ => []

/-- 64-byte grouping, structurally recursive on a fuel bound. -/
def chunks64Go : Nat → List Nat → List (List Nat)
  | _, [] => []
  | 0, l => [l]
  | fuel + 1, x :: rest => (x :: rest.take 63) :: chunks64Go fuel (rest.drop 63)

/-- The padded message split into 64-byte blocks. -/
def chunks64 (l : List Nat) : List (List Nat) := chunks64Go l.length l

/-- The SHA-1 message schedule, most recent word first: extends the reversed
16-word block by `n` words. -/
def sha1schedule (rev : List Nat) : Nat → List Nat
  | 0 => rev
  | n + 1 =>
    let next := rotl 1 (rev.getD 2 0 ^^^ rev.getD 7 0 ^^^ rev.getD 13 0 ^^^ rev.getD 15 0)
    sha1schedule (next :: rev) n

/-- SHA-1 round function for round `t`. -/
def sha1f (t b c d : Nat) : Nat :=
  if t < 20 then (b &&& c) ||| ((b ^^^ 4294967295) &&& d)
  else if t < 40 then b ^^^ c ^^^ d
  else if t < 60 then (b &&& c) ||| (b &&& d) ||| (c &&& d)
  else b ^^^ c ^^^ d

/-- SHA-1 round constant for round `t`. -/
def sha1k (t : Nat) : Nat :=
  if t < 20 then 1518500249
  else if t < 40 then 1859775393
  else if t < 60 then 2400959708
  else 3395469782

/-- The 80 SHA-1 rounds, consuming the schedule in order. -/
def sha1rounds : Nat → List Nat → Nat × Nat × Nat × Nat × Nat → Nat × Nat × Nat × Nat × Nat
  | _, [], st => st
  | t, wt :: rest, (a, b, c, d, e) =>
    let temp := w32 (rotl 5 a + sha1f t b c d + e + sha1k t + wt)
    sha1rounds (t + 1) rest (temp, a, rotl 30 b, c, d)

/-- Compression of one 64-byte block into the running state. -/
def sha1block (st : Nat × Nat × Nat × Nat × Nat) (block : List Nat) :
    Nat × Nat × Nat × Nat × Nat :=
  let ws := (sha1schedule (bytesToWords block).reverse 64).reverse
  let (h0, h1, h2, h3, h4) := st
  let (a, b, c, d, e) := sha1rounds 0 ws st
  (w32 (h0 + a), w32 (h1 + b), w32 (h2 + c), w32 (h3 + d), w32 (h4 + e))

/-- SHA-1 of a byte list, as the five 32-bit state words. -/
def sha1 (msg : List Nat) : Nat × Nat × Nat × Nat × Nat :=
  (chunks64 (sha1pad msg)).foldl sha1block
    (1732584193, 4023233417, 2562383102, 271733878, 3285377520)

/-- A 32-bit word as 4 big-endian bytes. -/
def wordBytes (w : Nat) : List Nat :=
  [w >>> 24 % 256, w >>> 16 % 256, w >>> 8 % 256, w % 256]

/-- The 20 digest bytes of SHA-1. -/
def sha1bytes (msg : List Nat) : List Nat :=
  let (h0, h1, h2, h3, h4) := sha1 msg
  wordBytes h0 ++ wordBytes h1 ++ wordBytes h2 ++ wordBytes h3 ++ wordBytes h4

/-- Lowercase hexadecimal digit for a nibble. -/
def hexDigitChar (n : Nat) : Char :=
  if n < 10 then Char.ofNat (48 + n) else Char.ofNat (87 + n)

/-- `format!("{:02x}", byte)`: two lowercase hex digits of a byte. -/
def byteHex (b : Nat) : List Char :=
  [hexDigitChar (b / 16 % 16), hexDigitChar (b % 16)]

/-- The lowercase hex string of a byte list (the digest rendering loop in
`hash`, src/process.rs). -/
def bytesHex (bs : List Nat) : String :=
  ⟨bs.flatMap byteHex⟩

/-- UTF-8 encoding of one character. -/
def charUtf8 (c : Char) : List Nat :=
  let n := c.toNat
  if n < 128 then [n]
  else if n < 2048 then [192 + n / 64, 128 + n % 64]
  else if n < 65536 then [224 + n / 4096, 128 + n / 64 % 64, 128 + n % 64]
  else [240 + n / 262144, 128 + n / 4096 % 64, 128 + n / 64 % 64, 128 + n % 64]

/-- UTF-8 bytes of a string (`str::as_bytes`). -/
def strBytes (s : String) : List Nat :=
  s.data.flatMap charUtf8

/-- `hash` from src/process.rs: the SHA-1 hex digest of the diagram source
bytes, then the output-format tag, then the diagram-type tag (three
`hasher.update` calls digest the concatenation). -/
def hash (diagram : String) (format : DiagramOutputFormat) (diagram_type : DiagramType) :
    String :=
  bytesHex (sha1bytes
    (strBytes diagram ++ strBytes format.display ++ strBytes diagram_type.display))

/-- `get_filename` from src/process.rs. -/
def get_filename (diagram : String) (diagram_type : DiagramType) (config : Config) : String :=
  config.filename_prefix ++ hash diagram config.output_format diagram_type
    ++ "." ++ config.output_format.display

/-- `PathBuf::join` for a relative file name. -/
def pathJoin (dir file : String) : String := dir ++ "/" ++ file

/-- `get_tmp_filepath` from src/process.rs. -/
def get_tmp_filepath (diagram : String) (diagram_type : DiagramType) (config : Config) :
    String :=
  pathJoin config.files_path (get_filename diagram diagram_type config)

/-! ### The cache directory and the Kroki client -/

/-- The cache directory: a map from path to file state. A value `none` models
a file that exists but cannot be read; entries earlier in the list shadow
later ones, so writing prepends. -/
abbrev Fs := List (String × Option (List Nat))

/-- `Path::exists`. -/
def Fs.pathExists (fs : Fs) (p : String) : Bool := (fs.lookup p).isSome

/-- `std::fs::read`, as an `Option` (`.ok()` is applied at the only call
site): `none` when the file is missing or unreadable. -/
def Fs.read (fs : Fs) (p : String) : Option (List Nat) := (fs.lookup p).bind id

/-- `std::fs::write` (modelled as always succeeding): overwrites by
shadowing. -/
def Fs.write (fs : Fs) (p : String) (b : List Nat) : Fs := (p, some b) :: fs

/-- `fetch_from_tmp` from src/process.rs: existence check, then a full read
whose failure is turned into a miss by `.ok()?`. -/
def fetch_from_tmp (fs : Fs) (diagram : String) (diagram_type : DiagramType)
    (config : Config) : Option (String × List Nat) :=
  let path := get_tmp_filepath diagram diagram_type config
  if fs.pathExists path then
    match fs.read path with
    | some contents => some (path, contents)
    | none => none
  else
    none

/-- A parsed MIME type: the `mime` crate's `Mime`, kept as its normalized
(trimmed, lowercased) text; equality is structural, as the client's
comparisons with `mime::IMAGE_SVG` / `mime::IMAGE_PNG` are. -/
structure Mime where
  essence : String
deriving DecidableEq, Repr

/-- An HTTP token character (RFC 7230), as the `mime` crate accepts in type
and subtype names. -/
def isTokenChar (c : Char) : Bool :=
  c.isAlphanum || "!#$%&'*+-.^_`|~".data.contains c

/-- Whitespace trimming of both ends (`str::trim` as a header value sees
it). -/
def strTrim (s : String) : String :=
  ⟨((s.data.dropWhile Char.isWhitespace).reverse.dropWhile Char.isWhitespace).reverse⟩

/-- The character list split at every occurrence of `c` (the separators are
dropped). -/
def splitOnChar (c : Char) (l : List Char) : List (List Char) :=
  l.foldr
    (fun ch acc =>
      match acc with
      | cur :: rest => if ch = c then [] :: cur :: rest else (ch :: cur) :: rest
      | [] => [[ch]])
    [[]]

/-- Modelled essence of `str::parse::<Mime>`: trim and lowercase, then accept
exactly a `type/subtype` of token characters (parameters are not modelled: a
mime with parameters would compare unequal to the two image types just as a
distinct subtype does). -/
def parseMime (s : String) : Option Mime :=
  match splitOnChar '/' (strToLower (strTrim s)).data with
  | [ty, sub] =>
    if !ty.isEmpty && !sub.isEmpty && ty.all isTokenChar && sub.all isTokenChar then
      some ⟨String.mk ty ++ "/" ++ String.mk sub⟩
    else
      none
  | _ => none

/-- `mime::IMAGE_SVG`. -/
def IMAGE_SVG : Mime := ⟨"image/svg+xml"⟩

/-- `mime::IMAGE_PNG`. -/
def IMAGE_PNG : Mime := ⟨"image/png"⟩

/-- `DiagramOutputFormat::mime_type` from src/process.rs. -/
def DiagramOutputFormat.mime_type : DiagramOutputFormat → Mime
  | .Svg => IMAGE_SVG
  | .Png => IMAGE_PNG

/-- The JSON body `render_kroki` posts to the Kroki service. -/
structure KrokiRequest where
  diagram_source : String
  diagram_type : String
  output_format : String
  diagram_options : List (String × String)
deriving DecidableEq, Repr

/-- A service response: the declared `Content-Type` header (already as a
string; `to_str` conversion is not modelled) and the body bytes. -/
structure Response where
  contentType : Option String
  body : List Nat
deriving DecidableEq, Repr

/-- The network: what `agent.post(kroki_url).send_json(req)` answers for the
request the client builds; `Except.error` is a transport failure. -/
def Net := KrokiRequest → Except String Response

/-- The `json!` request construction in `render_kroki` (src/process.rs):
`diagram_options` gets `"html-labels": "false"` exactly for Mermaid diagrams
rendered for a non-html renderer. -/
def mkKrokiRequest (diagram : String) (diagram_type : DiagramType) (config : Config)
    (renderer : String) : KrokiRequest where
  diagram_source := diagram
  diagram_type := diagram_type.display
  output_format := config.output_format.display
  diagram_options :=
    if renderer != "html" then
      match diagram_type with
      | DiagramType.Mermaid => [("html-labels", "false")]
      | _ => []
    else
      []

/-- `render_kroki` from src/process.rs: post the request, resolve the declared
content type (absent header means the requested format), fail on a mismatch
with the configured format, otherwise write the body to the cache path and
return it. The cache directory is threaded through so that an error visibly
leaves it unchanged. -/
def render_kroki (fs : Fs) (net : Net) (diagram : String) (diagram_type : DiagramType)
    (config : Config) (renderer : String) : Fs × Except String (String × List Nat) :=
  match net (mkKrokiRequest diagram diagram_type config renderer) with
  | .error e => (fs, .error ("Failed to send diagram to Kroki service: " ++ e))
  | .ok response =>
    let resolved : Except String DiagramOutputFormat :=
      match response.contentType with
      | some mime_str =>
        match parseMime mime_str with
        | none => .error ("Failed to parse response mime type as MIME type: " ++ mime_str)
        | some m =>
          if m = IMAGE_SVG then .ok DiagramOutputFormat.Svg
          else if m = IMAGE_PNG then .ok DiagramOutputFormat.Png
          else .error ("Unexpected response mime type from Kroki service: " ++ m.essence
            ++ " (expected image/svg+xml or image/png)")
      | none => .ok config.output_format
    match resolved with
    | .error e => (fs, .error e)
    | .ok output_format =>
      if output_format ≠ config.output_format then
        (fs, .error ("Kroki service returned unexpected output format: "
          ++ output_format.display ++ " (expected " ++ config.output_format.display ++ ")"))
      else
        let path := get_tmp_filepath diagram diagram_type config
        (fs.write path response.body, .ok (path, response.body))

/-- `render` from src/process.rs: cache lookup, falling through to the
client. -/
def render (fs : Fs) (net : Net) (diagram : String) (diagram_type : DiagramType)
    (config : Config) (renderer : String) : Fs × Except String (String × List Nat) :=
  match fetch_from_tmp fs diagram diagram_type config with
  | some (path, contents) => (fs, .ok (path, contents))
  | none => render_kroki fs net diagram diagram_type config renderer

/-! ### Events and the rewriter -/

/-- `pulldown_cmark::CodeBlockKind`. -/
inductive CodeBlockKind
  | Fenced (lang : String)
  | Indented
deriving DecidableEq, Repr

/-- The one `pulldown_cmark::LinkType` the rewriter emits. -/
inductive LinkType
  | Inline
deriving DecidableEq, Repr

/-- The fragment of `pulldown_cmark::Event` the rewriter inspects or builds;
`OtherEvent` stands for any other event, which the rewriter forwards
untouched. -/
inductive Event
  | StartCodeBlock (kind : CodeBlockKind)
  | EndCodeBlock
  | Text (s : String)
  | Html (s : String)
  | StartImage (link_type : LinkType) (dest_url : String) (title : String) (id : String)
  | EndImage
  | OtherEvent
deriving DecidableEq, Repr

/-- Result of running code that may return an error (propagated with `?`) or
panic (a failed `expect`). -/
inductive Outcome (α : Type)
  | ok (a : α)
  | err (msg : String)
  | panicked (msg : String)
deriving DecidableEq, Repr

/-- Character of the standard base64 alphabet. -/
def base64Char (n : Nat) : Char :=
  "ABCDEFGHIJKLMNOPQRSTUVWXYZabcdefghijklmnopqrstuvwxyz0123456789+/".toList.getD n '='

/-- `BASE64_STANDARD.encode`. -/
def base64Encode : List Nat → List Char
  | a :: b :: c :: rest =>
    let n := a * 65536 + b * 256 + c
    base64Char (n / 262144 % 64) :: base64Char (n / 4096 % 64) :: base64Char (n / 64 % 64)
      :: base64Char (n % 64) :: base64Encode rest
  | [a, b] =>
    let n := a * 65536 + b * 256
    [base64Char (n / 262144 % 64), base64Char (n / 4096 % 64), base64Char (n / 64 % 64), '=']
  | [a] =>
    let n := a * 65536
    [base64Char (n / 262144 % 64), base64Char (n / 4096 % 64), '=', '=']
  | [] => []

/-- A UTF-8 continuation byte. -/
def isCont (b : Nat) : Bool := 128 ≤ b && b < 192

/-- Strict UTF-8 decoding with a fuel bound (`String::from_utf8` succeeding
exactly on valid UTF-8: no overlong forms, surrogates or out-of-range code
points). -/
def utf8DecodeGo : Nat → List Nat → Option (List Char)
  | _, [] => some []
  | 0, _ => none
  | fuel + 1, b :: rest =>
    if b < 128 then
      (utf8DecodeGo fuel rest).map (Char.ofNat b :: ·)
    else if 194 ≤ b && b ≤ 223 then
      match rest with
      | c :: rest2 =>
        if isCont c then
          (utf8DecodeGo fuel rest2).map (Char.ofNat ((b - 192) * 64 + (c - 128)) :: ·)
        else none
      | _ => none
    else if 224 ≤ b && b ≤ 239 then
      match rest with
      | c :: d :: rest2 =>
        let n := (b - 224) * 4096 + (c - 128) * 64 + (d - 128)
        if isCont c && isCont d && 2048 ≤ n && !(55296 ≤ n && n ≤ 57343) then
          (utf8DecodeGo fuel rest2).map (Char.ofNat n :: ·)
        else none
      | _ => none
    else if 240 ≤ b && b ≤ 244 then
      match rest with
      | c :: d :: e :: rest2 =>
        let n := (b - 240) * 262144 + (c - 128) * 4096 + (d - 128) * 64 + (e - 128)
        if isCont c && isCont d && isCont e && 65536 ≤ n && n ≤ 1114111 then
          (utf8DecodeGo fuel rest2).map (Char.ofNat n :: ·)
        else none
      | _ => none
    else none

/-- `String::from_utf8` as an `Option`. -/
def utf8Decode (bs : List Nat) : Option String :=
  (utf8DecodeGo bs.length bs).map (⟨·⟩)

/-- Scanner for `strReplace`: replaces every non-overlapping occurrence of
`pat`, left to right, with fuel bounded by the text length. -/
def strReplaceGo (pat rep : List Char) : Nat → List Char → List Char
  | _, [] => []
  | 0, s => s
  | fuel + 1, ch :: rest =>
    if pat.isPrefixOf (ch :: rest) then
      rep ++ strReplaceGo pat rep fuel ((ch :: rest).drop pat.length)
    else
      ch :: strReplaceGo pat rep fuel rest

/-- `str::replace`: every non-overlapping occurrence of `pat` (nonempty at
the one call site), scanned left to right, becomes `rep`. -/
def strReplace (s pat rep : String) : String :=
  ⟨strReplaceGo pat.data rep.data s.data.length s.data⟩

/-- The exact XML declaration string `process_diagram` removes from an SVG
body (src/process.rs, the `svg.replace` call). -/
def xmlPrologue : String :=
  "<?xml version=\"1.0\" encoding=\"UTF-8\" standalone=\"no\"?>"

/-- The centering `<figure>` wrapper for an inline SVG. -/
def figureWrap (inner : String) : String :=
  "<figure style='display: flex;flex-direction: row;justify-content: center;'>"
    ++ inner ++ "</figure>\n\n"

/-- The centering `<figure>` wrapper around a data-URI `<img>`. -/
def figureImgWrap (uri : String) : String :=
  "<figure style='display: flex;flex-direction: row;justify-content: center;'><img src=\""
    ++ uri ++ "\" alt=\"rendered diagram\" /></figure>\n\n"

/-- `process_diagram` from src/process.rs: render (cache or client), then
synthesize the replacement events onto `events`. The failed `expect` on
`String::from_utf8` is a panic. -/
def process_diagram (fs : Fs) (net : Net) (diagram : String) (diagram_type : DiagramType)
    (config : Config) (renderer : String) (events : List Event) :
    Outcome (List Event × Fs) :=
  match render fs net diagram diagram_type config renderer with
  | (_, .error e) => .err ("Failed to render diagram: " ++ e)
  | (fs2, .ok (path, contents)) =>
    if renderer = "html" then
      match config.output_format with
      | DiagramOutputFormat.Svg =>
        match utf8Decode contents with
        | none => .panicked "valid utf-8"
        | some svg =>
          let svg := strReplace svg xmlPrologue ""
          .ok (events ++ [Event.Html (figureWrap svg)], fs2)
      | DiagramOutputFormat.Png =>
        let b64 := String.mk (base64Encode contents)
        let uri := "data:" ++ config.output_format.mime_type.essence ++ ";base64," ++ b64
        .ok (events ++ [Event.Html (figureImgWrap uri)], fs2)
    else
      .ok (events ++ [Event.StartImage LinkType.Inline path "" "", Event.EndImage,
        Event.Text "\n\n"], fs2)

/-- The rewriter's per-chapter mutable state (the two `Option` locals of
`process_chapter` plus the output vector and the cache directory). -/
structure ChapterState where
  diagram_type : Option DiagramType
  code_block_contents : Option String
  events : List Event
  fs : Fs
deriving DecidableEq, Repr

/-- One iteration of `process_chapter`'s event loop (src/process.rs): the
`match event` body. The failed `expect` on `code_block_contents.take()` is a
panic. `diagram_type` is deliberately NOT reset after a diagram block is
processed, mirroring the source. -/
def process_event (config : Config) (net : Net) (renderer : String)
    (st : ChapterState) (event : Event) : Outcome ChapterState :=
  match event with
  | Event.StartCodeBlock (CodeBlockKind.Fenced lang) =>
    let dt := code_lang_diagram_type lang config
    if dt.isSome then
      .ok { st with diagram_type := dt, code_block_contents := some "" }
    else
      .ok { st with diagram_type := dt, events := st.events ++ [event] }
  | Event.EndCodeBlock =>
    match st.diagram_type with
    | some dt =>
      match st.code_block_contents with
      | none => .panicked "can take code block contents"
      | some contents =>
        match process_diagram st.fs net contents dt config renderer st.events with
        | .ok (events, fs) =>
          .ok { st with code_block_contents := none, events := events, fs := fs }
        | .err e => .err e
        | .panicked m => .panicked m
    | none => .ok { st with events := st.events ++ [event] }
  | Event.Text txt =>
    match st.code_block_contents with
    | some buf => .ok { st with code_block_contents := some (buf ++ txt) }
    | none => .ok { st with events := st.events ++ [event] }
  | _ => .ok { st with events := st.events ++ [event] }

/-- `process_chapter`'s fold over the event stream. -/
def process_events (config : Config) (net : Net) (renderer : String) :
    ChapterState → List Event → Outcome ChapterState
  | st, [] => .ok st
  | st, e :: rest =>
    match process_event config net renderer st e with
    | .ok st2 => process_events config net renderer st2 rest
    | .err m => .err m
    | .panicked m => .panicked m

/-- `process_chapter` from src/process.rs, on the tokenizer's event stream for
one chapter (the tokenizer and re-serializer are external collaborators and
are not modelled). -/
def process_chapter (fs : Fs) (net : Net) (config : Config) (renderer : String)
    (events : List Event) : Outcome (List Event × Fs) :=
  match process_events config net renderer ⟨none, none, [], fs⟩ events with
  | .ok st => .ok (st.events, st.fs)
  | .err m => .err m
  | .panicked m => .panicked m

/-- `process` from src/process.rs: chapters in order, first error aborts. -/
def process (net : Net) (config : Config) (renderer : String) :
    Fs → List (List Event) → Outcome (List (List Event) × Fs)
  | fs, [] => .ok ([], fs)
  | fs, ch :: rest =>
    match process_chapter fs net config renderer ch with
    | .ok (evs, fs2) =>
      match process net config renderer fs2 rest with
      | .ok (chs, fs3) => .ok (evs :: chs, fs3)
      | .err m => .err m
      | .panicked m => .panicked m
    | .err m => .err m
    | .panicked m => .panicked m

/-! ### The preprocessor entry point (src/lib.rs) -/

/-- A preprocessor-table value as src/lib.rs reads it: `as_str` answers only
for strings, `as_float` only for floats; other value kinds are opaque
(`vOther`). -/
inductive TomlValue
  | vStr (s : String)
  | vFloat (q : ℚ)
  | vOther
deriving DecidableEq, Repr

/-- `toml::Value::as_str`. -/
def TomlValue.as_str : TomlValue → Option String
  | .vStr s => some s
  | _ => none

/-- `toml::Value::as_float`. -/
def TomlValue.as_float : TomlValue → Option ℚ
  | .vFloat q => some q
  | _ => none

/-- `DiagramsPreprocessor::run` from src/lib.rs: build the `Config` from the
`preprocessor.diagrams` table (if any), failing on an invalid `output_format`
string, then process the book. `create_dir_all` for a configured `files_path`
is modelled as always succeeding; `tmp_dir` stands for
`std::env::temp_dir()`. -/
def DiagramsPreprocessor.run (table : Option (List (String × TomlValue)))
    (tmp_dir : String) (fs : Fs) (net : Net) (renderer : String)
    (book : List (List Event)) : Outcome (List (List Event) × Fs) :=
  let config := Config.default tmp_dir
  match table with
  | none => process net config renderer fs book
  | some t =>
    let step : Except String Config :=
      match t.lookup "output_format" with
      | some v =>
        match v.as_str with
        | some s =>
          if s = "png" then .ok { config with output_format := DiagramOutputFormat.Png }
          else if s = "svg" then .ok { config with output_format := DiagramOutputFormat.Svg }
          else .error ("Invalid output_format: " ++ s ++ ", expected 'png' or 'svg'")
        | none => .ok config
      | none => .ok config
    match step with
    | .error e => .err e
    | .ok config =>
      let config :=
        match (t.lookup "language_prefix").bind TomlValue.as_str with
        | some s => { config with language_prefix := s }
        | none => config
      let config :=
        match (t.lookup "kroki_url").bind TomlValue.as_str with
        | some s => { config with kroki_url := s }
        | none => config
      let config :=
        match (t.lookup "kroki_timeout_secs").bind TomlValue.as_float with
        | some q => { config with kroki_timeout := some q }
        | none => config
      let config :=
        match (t.lookup "filename_prefix").bind TomlValue.as_str with
        | some s => { config with filename_prefix := s }
        | none => config
      let config :=
        match (t.lookup "files_path").bind TomlValue.as_str with
        | some s => if s ≠ "" then { config with files_path := s } else config
        | none => config
      process net config renderer fs book

/-! ## Theorems about the claims -/

/-- C1 counterexample: with an empty configured prefix, the tag
"mermaidology" is not exactly "mermaid", yet the classifier answers Mermaid —
`code_lang_diagram_type` matches with `starts_with`, not string equality. -/
theorem c1_counterexample :
    code_lang_diagram_type "mermaidology" (Config.default "/tmp") = some DiagramType.Mermaid ∧
    "mermaidology" ≠ "mermaid" := by
  decide

/-- C1 amended: the classifier answers Mermaid exactly when the tag starts
with the configured prefix followed by "mermaid", and PlantUML exactly when
it does not match the Mermaid pattern but starts with the prefix followed by
"plantuml"; in particular, with an empty configured prefix, any tag that
starts with neither "mermaid" nor "plantuml" classifies as None. -/
theorem c1_classifier_matches_by_start (lang : String) (config : Config) :
    (code_lang_diagram_type lang config = some DiagramType.Mermaid ↔
      strStartsWith lang (config.language_prefix ++ "mermaid") = true) ∧
    (code_lang_diagram_type lang config = some DiagramType.PlantUml ↔
      (strStartsWith lang (config.language_prefix ++ "mermaid") = false ∧
        strStartsWith lang (config.language_prefix ++ "plantuml") = true)) ∧
    (config.language_prefix = "" →
      strStartsWith lang "mermaid" = false →
      strStartsWith lang "plantuml" = false →
      code_lang_diagram_type lang config = none) := by
  cases h1 : strStartsWith lang (config.language_prefix ++ "mermaid") with
  | true =>
    refine ⟨by simp [code_lang_diagram_type, h1], by simp [code_lang_diagram_type, h1], ?_⟩
    intro hp hm _
    rw [hp] at h1
    have e : ("" : String) ++ "mermaid" = "mermaid" := rfl
    rw [e, hm] at h1
    cases h1
  | false =>
    cases h2 : strStartsWith lang (config.language_prefix ++ "plantuml") with
    | true =>
      refine ⟨?_, by simp [code_lang_diagram_type, h1, h2], ?_⟩
      · simp only [code_lang_diagram_type, h1, h2, Bool.false_eq_true, if_false, if_true]
        simp
      · intro hp _ hpl
        rw [hp] at h2
        have e : ("" : String) ++ "plantuml" = "plantuml" := rfl
        rw [e, hpl] at h2
        cases h2
    | false =>
      refine ⟨?_, by simp [code_lang_diagram_type, h1, h2], ?_⟩
      · simp only [code_lang_diagram_type, h1, h2, Bool.false_eq_true, if_false]
        constructor
        · intro h; split at h <;> simp_all
        · intro h; cases h
      · intro hp hm hpl
        simp [code_lang_diagram_type, h1, h2, hp, hm, hpl]

/-- The hex rendering of a byte list has two characters per byte. -/
theorem bytesHex_length (bs : List Nat) : (bytesHex bs).length = 2 * bs.length := by
  show (bs.flatMap byteHex).length = 2 * bs.length
  induction bs with
  | nil => rfl
  | cons b rest ih =>
    have e : (b :: rest).flatMap byteHex = byteHex b ++ rest.flatMap byteHex := rfl
    rw [e, List.length_append, ih, List.length_cons]
    show 2 + 2 * rest.length = 2 * (rest.length + 1)
    omega

/-- The SHA-1 digest has 20 bytes. -/
theorem sha1bytes_length (msg : List Nat) : (sha1bytes msg).length = 20 := by
  unfold sha1bytes
  rcases sha1 msg with ⟨a, b, c, d, e⟩
  simp [wordBytes]

/-- Nibbles render to lowercase hex digits. -/
theorem hexDigitChar_mem : ∀ n < 16, hexDigitChar n ∈ "0123456789abcdef".data := by
  decide

/-- Both characters of a byte's hex rendering are lowercase hex digits. -/
theorem byteHex_mem (b : Nat) : ∀ c ∈ byteHex b, c ∈ "0123456789abcdef".data := by
  intro c hc
  have hc' : c ∈ [hexDigitChar (b / 16 % 16), hexDigitChar (b % 16)] := hc
  rcases List.mem_cons.mp hc' with rfl | hc2
  · exact hexDigitChar_mem _ (Nat.mod_lt _ (by norm_num))
  · rcases List.mem_cons.mp hc2 with rfl | hc3
    · exact hexDigitChar_mem _ (Nat.mod_lt _ (by norm_num))
    · cases hc3

/-- C5: the cache filename is the configured filename prefix, then the hex
SHA-1 digest of the raw diagram source bytes followed by the output-format
tag bytes and the diagram-kind tag bytes, then a dot and the format
extension; the digest is 40 characters, all lowercase hex digits. The
filename is a pure function of those bytes (the source string enters the
digest byte-for-byte, unnormalized). -/
theorem c5_cache_filename (diagram : String) (diagram_type : DiagramType) (config : Config) :
    get_filename diagram diagram_type config =
      config.filename_prefix
        ++ bytesHex (sha1bytes (strBytes diagram ++ strBytes config.output_format.display
            ++ strBytes diagram_type.display))
        ++ "." ++ config.output_format.display ∧
    (hash diagram config.output_format diagram_type).length = 40 ∧
    (∀ c ∈ (hash diagram config.output_format diagram_type).data,
      c ∈ "0123456789abcdef".data) := by
  refine ⟨rfl, ?_, ?_⟩
  · show (bytesHex _).length = _
    rw [bytesHex_length, sha1bytes_length]
  · intro c hc
    have : c ∈ (sha1bytes (strBytes diagram ++ strBytes config.output_format.display
        ++ strBytes diagram_type.display)).flatMap byteHex := hc
    rcases List.mem_flatMap.mp this with ⟨b, _, hcb⟩
    exact byteHex_mem b c hcb

/-- C6: a missing file at the computed cache path, or one that exists but
cannot be read, is a cache miss (`none`, not an error), and `render` then
falls through to the service client. -/
theorem c6_cache_miss (fs : Fs) (net : Net) (diagram : String) (diagram_type : DiagramType)
    (config : Config) (renderer : String)
    (h : Fs.read fs (get_tmp_filepath diagram diagram_type config) = none) :
    fetch_from_tmp fs diagram diagram_type config = none ∧
    render fs net diagram diagram_type config renderer =
      render_kroki fs net diagram diagram_type config renderer := by
  have hf : fetch_from_tmp fs diagram diagram_type config = none := by
    simp only [fetch_from_tmp, h]
    split <;> rfl
  refine ⟨hf, ?_⟩
  unfold render
  rw [hf]

/-- C6 witness: with an empty cache directory the lookup misses and the
pipeline is the client call. -/
theorem c6_witness :
    fetch_from_tmp [] "a" DiagramType.Mermaid (Config.default "/tmp") = none ∧
    render [] (fun _ => Except.error "service down") "a" DiagramType.Mermaid
        (Config.default "/tmp") "html" =
      render_kroki [] (fun _ => Except.error "service down") "a" DiagramType.Mermaid
        (Config.default "/tmp") "html" :=
  c6_cache_miss [] (fun _ => Except.error "service down") "a" DiagramType.Mermaid
    (Config.default "/tmp") "html" rfl

/-- Writing a rendered artifact makes the lookup at the same key a hit
returning exactly the written bytes. -/
theorem fetch_from_tmp_write (fs : Fs) (diagram : String) (diagram_type : DiagramType)
    (config : Config) (b : List Nat) :
    fetch_from_tmp (Fs.write fs (get_tmp_filepath diagram diagram_type config) b)
        diagram diagram_type config =
      some (get_tmp_filepath diagram diagram_type config, b) := by
  simp [fetch_from_tmp, Fs.write, Fs.pathExists, Fs.read, List.lookup]

/-- A cache hit is at the computed path. -/
theorem fetch_from_tmp_ok (fs : Fs) (diagram : String) (diagram_type : DiagramType)
    (config : Config) (path : String) (b : List Nat)
    (h : fetch_from_tmp fs diagram diagram_type config = some (path, b)) :
    path = get_tmp_filepath diagram diagram_type config := by
  simp only [fetch_from_tmp] at h
  split at h
  · split at h <;> simp_all
  · cases h

/-- A successful client call returns the computed cache path and exactly the
cache directory extended by the response body at that path. -/
theorem render_kroki_ok (fs fs2 : Fs) (net : Net) (diagram : String)
    (diagram_type : DiagramType) (config : Config) (renderer : String)
    (path : String) (b : List Nat)
    (h : render_kroki fs net diagram diagram_type config renderer = (fs2, Except.ok (path, b))) :
    path = get_tmp_filepath diagram diagram_type config ∧
    fs2 = Fs.write fs (get_tmp_filepath diagram diagram_type config) b := by
  simp only [render_kroki] at h
  split at h
  · exact absurd h (by simp)
  · split at h
    · exact absurd h (by simp)
    · split at h
      · exact absurd h (by simp)
      · simp only [Prod.mk.injEq, Except.ok.injEq] at h
        obtain ⟨hfs, hp, hb⟩ := h
        subst hp hb
        exact ⟨rfl, hfs.symm⟩

/-- A successful `render` returns the computed cache path, and the cache
directory it results in serves that path with the returned bytes. -/
theorem render_ok (fs fs2 : Fs) (net : Net) (diagram : String) (diagram_type : DiagramType)
    (config : Config) (renderer : String) (path : String) (b : List Nat)
    (h : render fs net diagram diagram_type config renderer = (fs2, Except.ok (path, b))) :
    path = get_tmp_filepath diagram diagram_type config ∧
    fetch_from_tmp fs2 diagram diagram_type config = some (path, b) := by
  unfold render at h
  split at h
  next p c heq =>
    have hp := fetch_from_tmp_ok fs diagram diagram_type config p c heq
    simp only [Prod.mk.injEq, Except.ok.injEq] at h
    obtain ⟨hfs, hpp, hbb⟩ := h
    subst hfs hpp hbb
    exact ⟨hp, heq⟩
  next heq =>
    obtain ⟨hp, hw⟩ := render_kroki_ok fs fs2 net diagram diagram_type config renderer path b h
    subst hp hw
    exact ⟨rfl, fetch_from_tmp_write fs diagram diagram_type config b⟩

/-- C4: when the render pipeline succeeds, re-running it against the
resulting (unchanged) cache directory returns the same path and the same
bytes, leaves the cache as it is, and does so for EVERY network oracle — the
second call is served entirely from the cache and makes no network
request. -/
theorem c4_second_call_cached (fs fs2 : Fs) (net net2 : Net) (diagram : String)
    (diagram_type : DiagramType) (config : Config) (renderer : String)
    (path : String) (bytes : List Nat)
    (h : render fs net diagram diagram_type config renderer = (fs2, Except.ok (path, bytes))) :
    render fs2 net2 diagram diagram_type config renderer = (fs2, Except.ok (path, bytes)) := by
  obtain ⟨hp, hf⟩ := render_ok fs fs2 net diagram diagram_type config renderer path bytes h
  unfold render
  rw [hf]

/-- C4 witness: a first call served from a one-entry cache; the repeat call
(against an oracle that always fails, hence provably without network)
returns the same bytes. -/
theorem c4_witness :
    render (Fs.write [] (get_tmp_filepath "a" DiagramType.Mermaid (Config.default "/tmp")) [9])
        (fun _ => Except.error "offline") "a" DiagramType.Mermaid (Config.default "/tmp")
        "html" =
      (Fs.write [] (get_tmp_filepath "a" DiagramType.Mermaid (Config.default "/tmp")) [9],
        Except.ok (get_tmp_filepath "a" DiagramType.Mermaid (Config.default "/tmp"), [9])) :=
  c4_second_call_cached
    (Fs.write [] (get_tmp_filepath "a" DiagramType.Mermaid (Config.default "/tmp")) [9])
    (Fs.write [] (get_tmp_filepath "a" DiagramType.Mermaid (Config.default "/tmp")) [9])
    (fun _ => Except.error "offline") (fun _ => Except.error "offline")
    "a" DiagramType.Mermaid (Config.default "/tmp") "html"
    (get_tmp_filepath "a" DiagramType.Mermaid (Config.default "/tmp")) [9]
    (by unfold render
        rw [fetch_from_tmp_write [] "a" DiagramType.Mermaid (Config.default "/tmp") [9]])

/-- C3: for a delivered service response: a declared content type that does
not parse as a MIME type, or parses to anything other than image/svg+xml and
image/png, is a hard error leaving the cache unchanged; an absent content
type resolves to the requested format and the render proceeds, writing the
body at the computed cache path; a declared type resolving to a format
different from the configured one is a hard error before any cache write
(cache state unchanged). -/
theorem c3_response_validation (fs : Fs) (net : Net) (diagram : String)
    (diagram_type : DiagramType) (config : Config) (renderer : String) (resp : Response)
    (h : net (mkKrokiRequest diagram diagram_type config renderer) = Except.ok resp) :
    (∀ ct, resp.contentType = some ct →
      (parseMime ct = none ∨ ∀ m, parseMime ct = some m → m ≠ IMAGE_SVG ∧ m ≠ IMAGE_PNG) →
      ∃ e, render_kroki fs net diagram diagram_type config renderer = (fs, Except.error e)) ∧
    (resp.contentType = none →
      render_kroki fs net diagram diagram_type config renderer =
        (Fs.write fs (get_tmp_filepath diagram diagram_type config) resp.body,
          Except.ok (get_tmp_filepath diagram diagram_type config, resp.body))) ∧
    (∀ ct m, resp.contentType = some ct → parseMime ct = some m →
      ((m = IMAGE_SVG ∧ config.output_format ≠ DiagramOutputFormat.Svg) ∨
        (m = IMAGE_PNG ∧ config.output_format ≠ DiagramOutputFormat.Png)) →
      ∃ e, render_kroki fs net diagram diagram_type config renderer = (fs, Except.error e)) := by
  refine ⟨?_, ?_, ?_⟩
  · intro ct hct hbad
    rcases hm : parseMime ct with _ | m
    · have he : render_kroki fs net diagram diagram_type config renderer =
          (fs, Except.error ("Failed to parse response mime type as MIME type: " ++ ct)) := by
        simp [render_kroki, h, hct, hm]
      exact ⟨_, he⟩
    · rcases hbad with hnone | hall
      · rw [hm] at hnone; cases hnone
      · obtain ⟨hsvg, hpng⟩ := hall m hm
        have he : render_kroki fs net diagram diagram_type config renderer =
            (fs, Except.error ("Unexpected response mime type from Kroki service: "
              ++ m.essence ++ " (expected image/svg+xml or image/png)")) := by
          simp [render_kroki, h, hct, hm, hsvg, hpng]
        exact ⟨_, he⟩
  · intro hnone
    simp [render_kroki, h, hnone]
  · intro ct m hct hm hmis
    rcases hmis with ⟨rfl, hne⟩ | ⟨rfl, hne⟩
    · have he : render_kroki fs net diagram diagram_type config renderer =
          (fs, Except.error ("Kroki service returned unexpected output format: "
            ++ DiagramOutputFormat.Svg.display ++ " (expected "
            ++ config.output_format.display ++ ")")) := by
        simp only [render_kroki, h, hct, hm]
        simp [hne, Ne.symm hne]
      exact ⟨_, he⟩
    · have he : render_kroki fs net diagram diagram_type config renderer =
          (fs, Except.error ("Kroki service returned unexpected output format: "
            ++ DiagramOutputFormat.Png.display ++ " (expected "
            ++ config.output_format.display ++ ")")) := by
        simp only [render_kroki, h, hct, hm]
        simp [hne, Ne.symm hne, IMAGE_PNG, IMAGE_SVG]
      exact ⟨_, he⟩

/-- C3 witness: a response declaring text/html is rejected with the cache
left untouched. -/
theorem c3_witness :
    (∀ ct, (Response.mk (some "text/html") [7]).contentType = some ct →
      (parseMime ct = none ∨ ∀ m, parseMime ct = some m → m ≠ IMAGE_SVG ∧ m ≠ IMAGE_PNG) →
      ∃ e, render_kroki [] (fun _ => Except.ok (Response.mk (some "text/html") [7]))
        "a" DiagramType.Mermaid (Config.default "/tmp") "html" = ([], Except.error e)) ∧
    ((Response.mk (some "text/html") [7]).contentType = none →
      render_kroki [] (fun _ => Except.ok (Response.mk (some "text/html") [7]))
        "a" DiagramType.Mermaid (Config.default "/tmp") "html" =
        (Fs.write [] (get_tmp_filepath "a" DiagramType.Mermaid (Config.default "/tmp"))
          (Response.mk (some "text/html") [7]).body,
          Except.ok (get_tmp_filepath "a" DiagramType.Mermaid (Config.default "/tmp"),
            (Response.mk (some "text/html") [7]).body))) ∧
    (∀ ct m, (Response.mk (some "text/html") [7]).contentType = some ct → parseMime ct = some m →
      ((m = IMAGE_SVG ∧ (Config.default "/tmp").output_format ≠ DiagramOutputFormat.Svg) ∨
        (m = IMAGE_PNG ∧ (Config.default "/tmp").output_format ≠ DiagramOutputFormat.Png)) →
      ∃ e, render_kroki [] (fun _ => Except.ok (Response.mk (some "text/html") [7]))
        "a" DiagramType.Mermaid (Config.default "/tmp") "html" = ([], Except.error e)) :=
  c3_response_validation [] (fun _ => Except.ok (Response.mk (some "text/html") [7]))
    "a" DiagramType.Mermaid (Config.default "/tmp") "html"
    (Response.mk (some "text/html") [7]) rfl

/-- C8: for a renderer other than "html", the synthesized replacement is a
standard inline-link image event pair whose destination is the on-disk cache
file path (the configured cache directory joined with the prefixed
filename), followed by a blank-line text event — no inline image bytes. -/
theorem c8_file_reference_events (fs fs2 : Fs) (net : Net) (diagram : String)
    (diagram_type : DiagramType) (config : Config) (renderer : String)
    (events : List Event) (path : String) (contents : List Nat)
    (hrnd : renderer ≠ "html")
    (h : render fs net diagram diagram_type config renderer = (fs2, Except.ok (path, contents))) :
    process_diagram fs net diagram diagram_type config renderer events =
      Outcome.ok (events ++ [Event.StartImage LinkType.Inline path "" "",
        Event.EndImage, Event.Text "\n\n"], fs2) ∧
    path = pathJoin config.files_path (get_filename diagram diagram_type config) := by
  have hp := (render_ok fs fs2 net diagram diagram_type config renderer path contents h).1
  refine ⟨?_, hp⟩
  unfold process_diagram
  rw [h]
  simp [hrnd]

/-- C8 witness: the "pandoc" renderer gets an image reference to the cache
path and a blank-line text event. -/
theorem c8_witness :
    process_diagram
        (Fs.write [] (get_tmp_filepath "a" DiagramType.Mermaid (Config.default "/tmp")) [9])
        (fun _ => Except.error "offline") "a" DiagramType.Mermaid (Config.default "/tmp")
        "pandoc" [] =
      Outcome.ok ([Event.StartImage LinkType.Inline
          (get_tmp_filepath "a" DiagramType.Mermaid (Config.default "/tmp")) "" "",
        Event.EndImage, Event.Text "\n\n"],
        Fs.write [] (get_tmp_filepath "a" DiagramType.Mermaid (Config.default "/tmp")) [9]) ∧
    get_tmp_filepath "a" DiagramType.Mermaid (Config.default "/tmp") =
      pathJoin (Config.default "/tmp").files_path
        (get_filename "a" DiagramType.Mermaid (Config.default "/tmp")) :=
  c8_file_reference_events
    (Fs.write [] (get_tmp_filepath "a" DiagramType.Mermaid (Config.default "/tmp")) [9])
    (Fs.write [] (get_tmp_filepath "a" DiagramType.Mermaid (Config.default "/tmp")) [9])
    (fun _ => Except.error "offline") "a" DiagramType.Mermaid (Config.default "/tmp")
    "pandoc" [] (get_tmp_filepath "a" DiagramType.Mermaid (Config.default "/tmp")) [9]
    (by decide)
    (by unfold render
        rw [fetch_from_tmp_write [] "a" DiagramType.Mermaid (Config.default "/tmp") [9]])

/-- C7 counterexample: an SVG body whose XML declaration is spelled
differently from the one literal the code replaces is embedded with its
prologue intact — the code removes only the exact string
`<?xml version="1.0" encoding="UTF-8" standalone="no"?>`, not an arbitrary
leading XML declaration. -/
theorem c7_counterexample :
    process_diagram
        (Fs.write []
          (get_tmp_filepath "a" DiagramType.Mermaid
            { Config.default "/tmp" with output_format := DiagramOutputFormat.Svg })
          (strBytes "<?xml version=\"1.0\"?><svg/>"))
        (fun _ => Except.error "offline") "a" DiagramType.Mermaid
        { Config.default "/tmp" with output_format := DiagramOutputFormat.Svg } "html" [] =
      Outcome.ok ([Event.Html (figureWrap "<?xml version=\"1.0\"?><svg/>")],
        Fs.write []
          (get_tmp_filepath "a" DiagramType.Mermaid
            { Config.default "/tmp" with output_format := DiagramOutputFormat.Svg })
          (strBytes "<?xml version=\"1.0\"?><svg/>")) := by
  decide

/-- C7 amended: for the html renderer with SVG output, the synthesized
output decodes the rendered bytes as text, removes every occurrence of the
one exact XML declaration spelling
`<?xml version="1.0" encoding="UTF-8" standalone="no"?>` (other spellings
are left in place), wraps the result in a centering figure element and
embeds it inline as a single raw HTML event (no file reference). -/
theorem c7_inline_svg (fs fs2 : Fs) (net : Net) (diagram : String)
    (diagram_type : DiagramType) (config : Config) (events : List Event)
    (path : String) (contents : List Nat) (svg : String)
    (hfmt : config.output_format = DiagramOutputFormat.Svg)
    (h : render fs net diagram diagram_type config "html" = (fs2, Except.ok (path, contents)))
    (hdec : utf8Decode contents = some svg) :
    process_diagram fs net diagram diagram_type config "html" events =
      Outcome.ok (events ++ [Event.Html (figureWrap (strReplace svg xmlPrologue ""))], fs2) := by
  unfold process_diagram
  rw [h]
  simp [hfmt, hdec]

/-- C7 witness: a cached plain SVG body is embedded inline, wrapped in the
centering figure. -/
theorem c7_witness :
    process_diagram
        (Fs.write []
          (get_tmp_filepath "a" DiagramType.Mermaid
            { Config.default "/tmp" with output_format := DiagramOutputFormat.Svg })
          (strBytes "<svg/>"))
        (fun _ => Except.error "offline") "a" DiagramType.Mermaid
        { Config.default "/tmp" with output_format := DiagramOutputFormat.Svg } "html" [] =
      Outcome.ok ([Event.Html (figureWrap (strReplace "<svg/>" xmlPrologue ""))],
        Fs.write []
          (get_tmp_filepath "a" DiagramType.Mermaid
            { Config.default "/tmp" with output_format := DiagramOutputFormat.Svg })
          (strBytes "<svg/>")) :=
  c7_inline_svg
    (Fs.write []
      (get_tmp_filepath "a" DiagramType.Mermaid
        { Config.default "/tmp" with output_format := DiagramOutputFormat.Svg })
      (strBytes "<svg/>"))
    (Fs.write []
      (get_tmp_filepath "a" DiagramType.Mermaid
        { Config.default "/tmp" with output_format := DiagramOutputFormat.Svg })
      (strBytes "<svg/>"))
    (fun _ => Except.error "offline") "a" DiagramType.Mermaid
    { Config.default "/tmp" with output_format := DiagramOutputFormat.Svg } []
    (get_tmp_filepath "a" DiagramType.Mermaid
      { Config.default "/tmp" with output_format := DiagramOutputFormat.Svg })
    (strBytes "<svg/>") "<svg/>" rfl
    (by unfold render
        rw [fetch_from_tmp_write [] "a" DiagramType.Mermaid
          { Config.default "/tmp" with output_format := DiagramOutputFormat.Svg }
          (strBytes "<svg/>")])
    (by decide)

/-- C2, the code's divergence at the failing input: in a well-formed stream
where an indented code block follows a (cached) diagram block, the rewriter
panics at the `expect` on the taken buffer instead of forwarding the later
code-block-end event — `diagram_type` is never reset after a diagram block
is processed, so the indented block's end event is treated as a diagram end
with no open buffer. -/
theorem c2_take_buffer_panic :
    process_chapter
        (Fs.write [] (get_tmp_filepath "graph" DiagramType.Mermaid (Config.default "/tmp")) [9])
        (fun _ => Except.error "offline") (Config.default "/tmp") "pandoc"
        [Event.StartCodeBlock (CodeBlockKind.Fenced "mermaid"), Event.Text "graph",
          Event.EndCodeBlock, Event.StartCodeBlock CodeBlockKind.Indented,
          Event.Text "code", Event.EndCodeBlock] =
      Outcome.panicked "can take code block contents" := by
  decide

/-- C9 counterexample: an `output_format` value that is present but not a
string (here a float) is silently ignored — `as_str` answers None, the
config keeps the default Png, and the run proceeds (an empty book processes
successfully) instead of failing with a configuration error. -/
theorem c9_counterexample :
    DiagramsPreprocessor.run (some [("output_format", TomlValue.vFloat 1)])
        "/tmp" [] (fun _ => Except.error "offline") "html" [] =
      Outcome.ok ([], []) := by
  decide

/-- C9 amended: whenever the `output_format` value is present as a string
and that string is neither "png" nor "svg", the run fails immediately with
the configuration error; the result does not depend on the book, the cache
or the network, so the book transformation never starts. -/
theorem c9_invalid_output_format (t : List (String × TomlValue)) (s : String)
    (tmp_dir : String) (fs : Fs) (net : Net) (renderer : String) (book : List (List Event))
    (hpres : t.lookup "output_format" = some (TomlValue.vStr s))
    (hpng : s ≠ "png") (hsvg : s ≠ "svg") :
    DiagramsPreprocessor.run (some t) tmp_dir fs net renderer book =
      Outcome.err ("Invalid output_format: " ++ s ++ ", expected 'png' or 'svg'") ∧
    ∀ (fs' : Fs) (net' : Net) (book' : List (List Event)),
      DiagramsPreprocessor.run (some t) tmp_dir fs' net' renderer book' =
        DiagramsPreprocessor.run (some t) tmp_dir fs net renderer book := by
  have key : ∀ (fs0 : Fs) (net0 : Net) (book0 : List (List Event)),
      DiagramsPreprocessor.run (some t) tmp_dir fs0 net0 renderer book0 =
        Outcome.err ("Invalid output_format: " ++ s ++ ", expected 'png' or 'svg'") := by
    intro fs0 net0 book0
    simp [DiagramsPreprocessor.run, hpres, TomlValue.as_str, hpng, hsvg]
  exact ⟨key fs net book,
    fun fs' net' book' => (key fs' net' book').trans (key fs net book).symm⟩

/-- C9 witness: the string "bmp" as output_format fails the run at once, for
any book. -/
theorem c9_witness :
    DiagramsPreprocessor.run (some [("output_format", TomlValue.vStr "bmp")])
        "/tmp" [] (fun _ => Except.error "offline") "html" [[Event.OtherEvent]] =
      Outcome.err ("Invalid output_format: " ++ "bmp" ++ ", expected 'png' or 'svg'") ∧
    ∀ (fs' : Fs) (net' : Net) (book' : List (List Event)),
      DiagramsPreprocessor.run (some [("output_format", TomlValue.vStr "bmp")])
          "/tmp" fs' net' "html" book' =
        DiagramsPreprocessor.run (some [("output_format", TomlValue.vStr "bmp")])
          "/tmp" [] (fun _ => Except.error "offline") "html" [[Event.OtherEvent]] :=
  c9_invalid_output_format [("output_format", TomlValue.vStr "bmp")] "bmp"
    "/tmp" [] (fun _ => Except.error "offline") "html" [[Event.OtherEvent]]
    rfl (by decide) (by decide)

/-- The configuration used by the C10 instances: a non-empty language
prefix. -/
def cfgPre : Config := { Config.default "/tmp" with language_prefix := "diagram-" }

/-- C10: two tags that both classify as Other kinds and whose prefix-stripped
suffixes agree up to ASCII letter case serialize identically (the Display
impl lowercases the Other tag), so the service request and the cache
filename coincide; the stored variants themselves retain each tag's original
case: they are the verbatim prefix-stripped suffixes. -/
theorem c10_other_case_insensitive (t1 t2 : String) (config : Config) (s1 s2 : String)
    (h1 : code_lang_diagram_type t1 config = some (DiagramType.Other s1))
    (h2 : code_lang_diagram_type t2 config = some (DiagramType.Other s2))
    (hcase : strToLower s1 = strToLower s2)
    (diagram : String) (renderer : String) :
    DiagramType.display (DiagramType.Other s1) = DiagramType.display (DiagramType.Other s2) ∧
    mkKrokiRequest diagram (DiagramType.Other s1) config renderer =
      mkKrokiRequest diagram (DiagramType.Other s2) config renderer ∧
    get_filename diagram (DiagramType.Other s1) config =
      get_filename diagram (DiagramType.Other s2) config ∧
    s1 = strDrop t1 config.language_prefix.data.length ∧
    s2 = strDrop t2 config.language_prefix.data.length := by
  have hd : DiagramType.display (DiagramType.Other s1) =
      DiagramType.display (DiagramType.Other s2) := hcase
  refine ⟨hd, ?_, ?_, ?_, ?_⟩
  · unfold mkKrokiRequest
    rw [hd]
  · unfold get_filename hash
    rw [hd]
  · unfold code_lang_diagram_type at h1
    split at h1
    · exact absurd h1 (by simp)
    · split at h1
      · exact absurd h1 (by simp)
      · split at h1
        · injection h1 with h
          injection h with h'
          exact h'.symm
        · exact absurd h1 (by simp)
  · unfold code_lang_diagram_type at h2
    split at h2
    · exact absurd h2 (by simp)
    · split at h2
      · exact absurd h2 (by simp)
      · split at h2
        · injection h2 with h
          injection h with h'
          exact h'.symm
        · exact absurd h2 (by simp)

/-- C10 witness: "diagram-Foo" and "diagram-fOO" produce the same request
and the same cache filename, while the classifier stores the suffixes
verbatim. -/
theorem c10_witness :
    DiagramType.display (DiagramType.Other "Foo") =
      DiagramType.display (DiagramType.Other "fOO") ∧
    mkKrokiRequest "d" (DiagramType.Other "Foo") cfgPre "html" =
      mkKrokiRequest "d" (DiagramType.Other "fOO") cfgPre "html" ∧
    get_filename "d" (DiagramType.Other "Foo") cfgPre =
      get_filename "d" (DiagramType.Other "fOO") cfgPre ∧
    "Foo" = strDrop "diagram-Foo" cfgPre.language_prefix.data.length ∧
    "fOO" = strDrop "diagram-fOO" cfgPre.language_prefix.data.length :=
  c10_other_case_insensitive "diagram-Foo" "diagram-fOO" cfgPre "Foo" "fOO"
    (by decide) (by decide) (by decide) "d" "html"

end MdbookDiagrams
